import Mathlib

/-!
Shallow embedding of `src/yolox/models/darknet.py` (classes `Darknet` and
`CSPDarknet`).  The file declares the layer-graph metadata the two
constructors build (block variants with their declared channel counts,
strides and repeat counts), the construction control flow including its
assertion failures, and the forward pass's stage-output-filtering, with the
numeric tensor semantics of each block left abstract (it lives in the
external framework, not in this repository).
-/

/-- Python `int(q)` on a real value: truncation toward zero. -/
def pyInt (q : ℚ) : ℤ := if 0 ≤ q then ⌊q⌋ else ⌈q⌉

/-- Python `round(q)` on a real value: round half to even (banker's rounding). -/
def pyRound (q : ℚ) : ℤ :=
  if q - ⌊q⌋ < 1/2 then ⌊q⌋
  else if q - ⌊q⌋ > 1/2 then ⌊q⌋ + 1
  else if ⌊q⌋ % 2 = 0 then ⌊q⌋ else ⌊q⌋ + 1

/-- Modelled from the spec: the block variants imported from
`network_blocks.py` (a file outside the analyzed slice).  Per the spec's data
model, each block is "polymorphic over variants
{BaseConv, ResLayer, CSPLayer, Focus, SPPBottleneck}" and "records its
input/output channel counts and stride"; argument roles follow the call
sites in `darknet.py` (first two arguments are input/output channels,
`ResLayer` has a single channel argument, `CSPLayer` carries a repeat count
`n`, a `shortcut` flag and a `depthwise` flag, every variant carries its
activation kind). -/
inductive Block where
  | baseConv (in_channels out_channels ksize stride : ℤ) (act : String)
  | resLayer (in_channels : ℤ)
  | cspLayer (in_channels out_channels : ℤ) (n : ℕ) (shortcut : Bool)
      (depthwise : Bool) (act : String)
  | focus (in_channels out_channels ksize : ℤ) (act : String)
  | sppBottleneck (in_channels out_channels : ℤ) (act : String)
  deriving DecidableEq, Repr

/-- Declared input channel count of a block. -/
def Block.inCh : Block → ℤ
  | .baseConv i _ _ _ _ => i
  | .resLayer i => i
  | .cspLayer i _ _ _ _ _ => i
  | .focus i _ _ _ => i
  | .sppBottleneck i _ _ => i

/-- Declared output channel count of a block (a `ResLayer` preserves its
channel count). -/
def Block.outCh : Block → ℤ
  | .baseConv _ o _ _ _ => o
  | .resLayer i => i
  | .cspLayer _ o _ _ _ _ => o
  | .focus _ o _ _ => o
  | .sppBottleneck _ o _ => o

/-- A stage (`nn.Sequential`): an ordered list of blocks. -/
abbrev Stage := List Block

/-- Declared output channel count of a stage: the last block's output
channels (`dflt` if the stage is empty). -/
def Stage.outCh (dflt : ℤ) (s : Stage) : ℤ := s.foldl (fun _ b => b.outCh) dflt

/-- The static wiring invariant: starting from channel count `c`, each
block's declared input channels equal the previous block's declared output
channels. -/
def Stage.wiredFrom (c : ℤ) : Stage → Bool
  | [] => true
  | b :: rest => (b.inCh == c) && Stage.wiredFrom b.outCh rest

/-- Number of `ResLayer` blocks in a stage. -/
def Stage.resCount (s : Stage) : ℕ :=
  (s.filter (fun b => match b with | .resLayer _ => true | _ => false)).length

/-- Sum of the `CSPLayer` repeat counts `n` in a stage (each CSPDarknet
stage holds exactly one `CSPLayer`). -/
def Stage.cspN (s : Stage) : ℕ :=
  (s.map (fun b => match b with | .cspLayer _ _ n _ _ _ => n | _ => 0)).sum

namespace Darknet

/-- Source `Darknet.depth2blocks = {21: [1, 2, 2, 1], 53: [2, 8, 8, 4]}`: the fixed
lookup table from depth to the block counts of dark2..dark5 (`none` models a
`KeyError` for an unsupported key, which the constructor's preceding
`assert` prevents from being reached). -/
def depth2blocks (depth : ℤ) : Option (ℕ × ℕ × ℕ × ℕ) :=
  if depth = 21 then some (1, 2, 2, 1)
  else if depth = 53 then some (2, 8, 8, 4)
  else none

/-- Source `Darknet.make_group_layer`: a stride-`stride` `BaseConv` doubling the
channels, followed by `num_blocks` `ResLayer`s. -/
def make_group_layer (in_channels : ℤ) (num_blocks : ℕ) (stride : ℤ) : Stage :=
  Block.baseConv in_channels (in_channels * 2) 3 stride "lrelu"
    :: List.replicate num_blocks (Block.resLayer (in_channels * 2))

/-- Source `Darknet.make_spp_block filters_list in_filters` where
`filters_list = [f0, f1]` in the source (the source indexes the list at 0
and 1 only). -/
def make_spp_block (f0 f1 in_filters : ℤ) : Stage :=
  [ Block.baseConv in_filters f0 1 1 "lrelu",
    Block.baseConv f0 f1 3 1 "lrelu",
    Block.sppBottleneck f1 f0 "lrelu",
    Block.baseConv f0 f1 3 1 "lrelu",
    Block.baseConv f1 f0 1 1 "lrelu" ]

/-- The constructed network: the five stage graphs plus the retained
output-feature request. -/
structure Net where
  stem : Stage
  dark2 : Stage
  dark3 : Stage
  dark4 : Stage
  dark5 : Stage
  out_features : List String
  deriving DecidableEq, Repr

/-- Construction failure of `Darknet.__init__`.  `emptyOutFeatures` models
the `assert out_features` failing before any layer is built (it carries no
partial graph); `unsupportedDepth` models the `assert depth == 21 or depth
== 53` failing after `self.stem` has already been assigned (it carries the
already-built stem). -/
inductive InitError where
  | emptyOutFeatures
  | unsupportedDepth (builtStem : Stage)
  deriving DecidableEq, Repr

/-- Source `Darknet.__init__`, transcribed statement by statement:
check `out_features`, build the stem, double `in_channels`, check the
depth, then build dark2..dark5 from the lookup table. -/
def init (depth : ℤ) (in_channels stem_out_channels : ℤ)
    (out_features : List String) : Except InitError Net :=
  if out_features = [] then .error .emptyOutFeatures
  else
    let stem : Stage :=
      Block.baseConv in_channels stem_out_channels 3 1 "lrelu"
        :: make_group_layer stem_out_channels 1 2
    let ic := stem_out_channels * 2
    match depth2blocks depth with
    | none => .error (.unsupportedDepth stem)
    | some (n0, n1, n2, n3) =>
      let dark2 := make_group_layer ic n0 2
      let ic := ic * 2
      let dark3 := make_group_layer ic n1 2
      let ic := ic * 2
      let dark4 := make_group_layer ic n2 2
      let ic := ic * 2
      let dark5 := make_group_layer ic n3 2 ++ make_spp_block ic (ic * 2) (ic * 2)
      .ok ⟨stem, dark2, dark3, dark4, dark5, out_features⟩

end Darknet

namespace CSPDarknet

/-- The constructed CSPDarknet network. -/
structure Net where
  stem : Stage
  dark2 : Stage
  dark3 : Stage
  dark4 : Stage
  dark5 : Stage
  out_features : List String
  deriving DecidableEq, Repr

/-- Construction failure of `CSPDarknet.__init__`: only the
`assert out_features` at the top, before any layer is built. -/
inductive InitError where
  | emptyOutFeatures
  deriving DecidableEq, Repr

/-- Source `CSPDarknet.__init__`, transcribed statement by statement.
`base_channels = int(width_multiplier * 64)`,
`base_depth = max(round(depth_multiplier * 3), 1)`. -/
def init (depth_multiplier width_multiplier : ℚ) (out_features : List String)
    (act : String) (depthwise : Bool) : Except InitError Net :=
  if out_features = [] then .error .emptyOutFeatures
  else
    let base_channels : ℤ := pyInt (width_multiplier * 64)
    let base_depth : ℕ := (max (pyRound (depth_multiplier * 3)) 1).toNat
    let stem : Stage := [Block.focus 3 base_channels 3 act]
    let dark2 : Stage :=
      [ Block.baseConv base_channels (base_channels * 2) 3 2 act,
        Block.cspLayer (base_channels * 2) (base_channels * 2) base_depth
          true depthwise act ]
    let dark3 : Stage :=
      [ Block.baseConv (base_channels * 2) (base_channels * 4) 3 2 act,
        Block.cspLayer (base_channels * 4) (base_channels * 4) (base_depth * 3)
          true depthwise act ]
    let dark4 : Stage :=
      [ Block.baseConv (base_channels * 4) (base_channels * 8) 3 2 act,
        Block.cspLayer (base_channels * 8) (base_channels * 8) (base_depth * 3)
          true depthwise act ]
    let dark5 : Stage :=
      [ Block.baseConv (base_channels * 8) (base_channels * 16) 3 2 act,
        Block.sppBottleneck (base_channels * 16) (base_channels * 16) act,
        Block.cspLayer (base_channels * 16) (base_channels * 16) base_depth
          false depthwise act ]
    .ok ⟨stem, dark2, dark3, dark4, dark5, out_features⟩

end CSPDarknet

/-- The five stage names, in the order the forward passes record them. -/
def stageNames : List String := ["stem", "dark2", "dark3", "dark4", "dark5"]

/-- Evaluate a stage on an abstract tensor: apply each block's (abstract)
numeric semantics `interp` in order, as `nn.Sequential` does. -/
def Stage.eval {T : Type} (interp : Block → T → T) (s : Stage) (x : T) : T :=
  s.foldl (fun t b => interp b t) x

/-- The full five-entry mapping both forward passes accumulate in `outputs`
before filtering: each stage is evaluated sequentially and unconditionally
on the previous stage's result. -/
def fullOutputs {T : Type} (interp : Block → T → T)
    (stem dark2 dark3 dark4 dark5 : Stage) (x : T) : List (String × T) :=
  let x1 := stem.eval interp x
  let x2 := dark2.eval interp x1
  let x3 := dark3.eval interp x2
  let x4 := dark4.eval interp x3
  let x5 := dark5.eval interp x4
  [("stem", x1), ("dark2", x2), ("dark3", x3), ("dark4", x4), ("dark5", x5)]

/-- Source `Darknet.forward`: thread `x` through the five stages, record each
output under its stage name, then keep the entries whose name is in
`self.out_features` (`{k: v for k, v in outputs.items() if k in
self.out_features}`, which preserves the dict's insertion order). -/
def Darknet.Net.forward {T : Type} (net : Darknet.Net)
    (interp : Block → T → T) (x : T) : List (String × T) :=
  let x1 := net.stem.eval interp x
  let x2 := net.dark2.eval interp x1
  let x3 := net.dark3.eval interp x2
  let x4 := net.dark4.eval interp x3
  let x5 := net.dark5.eval interp x4
  let outputs : List (String × T) :=
    [("stem", x1), ("dark2", x2), ("dark3", x3), ("dark4", x4), ("dark5", x5)]
  outputs.filter (fun kv => decide (kv.1 ∈ net.out_features))

/-- Source `CSPDarknet.forward`: identical control flow to `Darknet.forward`. -/
def CSPDarknet.Net.forward {T : Type} (net : CSPDarknet.Net)
    (interp : Block → T → T) (x : T) : List (String × T) :=
  let x1 := net.stem.eval interp x
  let x2 := net.dark2.eval interp x1
  let x3 := net.dark3.eval interp x2
  let x4 := net.dark4.eval interp x3
  let x5 := net.dark5.eval interp x4
  let outputs : List (String × T) :=
    [("stem", x1), ("dark2", x2), ("dark3", x3), ("dark4", x4), ("dark5", x5)]
  outputs.filter (fun kv => decide (kv.1 ∈ net.out_features))

/-! ### Helper lemmas -/

/-- Unsupported depths are exactly those the lookup table misses. -/
lemma Darknet.depth2blocks_eq_none {depth : ℤ} (h21 : depth ≠ 21)
    (h53 : depth ≠ 53) : Darknet.depth2blocks depth = none := by
  simp [Darknet.depth2blocks, h21, h53]

/-- Full characterization of `Darknet.init` on a non-empty output request:
either the lookup misses and the error carries the already-built stem, or
the lookup hits and the five stages are built from its four counts. -/
lemma Darknet.init_spec (depth in_channels so : ℤ) (feats : List String)
    (hf : feats ≠ []) :
    (Darknet.depth2blocks depth = none →
      Darknet.init depth in_channels so feats = .error (.unsupportedDepth
        (Block.baseConv in_channels so 3 1 "lrelu"
          :: Darknet.make_group_layer so 1 2))) ∧
    (∀ n0 n1 n2 n3, Darknet.depth2blocks depth = some (n0, n1, n2, n3) →
      Darknet.init depth in_channels so feats = .ok
        ⟨Block.baseConv in_channels so 3 1 "lrelu"
            :: Darknet.make_group_layer so 1 2,
          Darknet.make_group_layer (so * 2) n0 2,
          Darknet.make_group_layer (so * 2 * 2) n1 2,
          Darknet.make_group_layer (so * 2 * 2 * 2) n2 2,
          Darknet.make_group_layer (so * 2 * 2 * 2 * 2) n3 2 ++
            Darknet.make_spp_block (so * 2 * 2 * 2 * 2) (so * 2 * 2 * 2 * 2 * 2)
              (so * 2 * 2 * 2 * 2 * 2),
          feats⟩) := by
  unfold Darknet.init
  rw [if_neg hf]
  constructor
  · intro h; rw [h]
  · intro n0 n1 n2 n3 h; rw [h]

/-- A group layer contains exactly its `num_blocks` `ResLayer`s. -/
lemma Stage.resCount_group (c s : ℤ) (n : ℕ) :
    (Darknet.make_group_layer c n s).resCount = n := by
  induction n with
  | zero => rfl
  | succ k ih =>
    simp [Darknet.make_group_layer, Stage.resCount, List.replicate_succ,
      List.filter_cons] at ih ⊢

/-- The SPP block contains no `ResLayer`. -/
lemma Stage.resCount_spp (f0 f1 fi : ℤ) :
    (Darknet.make_spp_block f0 f1 fi).resCount = 0 := rfl

/-- `resCount` is additive over stage concatenation. -/
lemma Stage.resCount_append (s t : Stage) :
    (s ++ t).resCount = s.resCount + t.resCount := by
  simp [Stage.resCount, List.filter_append]

/-! ### Claim theorems (construction, Darknet variant) -/

/-- C3: the fixed-depth `Darknet` constructor takes its per-stage `ResLayer`
repeat counts for (dark2, dark3, dark4, dark5) from the fixed lookup table
`depth2blocks`; they are exactly (1, 2, 2, 1) for depth 21 and (2, 8, 8, 4)
for depth 53. -/
theorem claim_C3_depth2blocks_repeat_counts (in_channels so : ℤ)
    (feats : List String) (hf : feats ≠ []) :
    Darknet.depth2blocks 21 = some (1, 2, 2, 1) ∧
    Darknet.depth2blocks 53 = some (2, 8, 8, 4) ∧
    (Darknet.init 21 in_channels so feats).toOption.map
      (fun n => (n.dark2.resCount, n.dark3.resCount,
                 n.dark4.resCount, n.dark5.resCount)) = some (1, 2, 2, 1) ∧
    (Darknet.init 53 in_channels so feats).toOption.map
      (fun n => (n.dark2.resCount, n.dark3.resCount,
                 n.dark4.resCount, n.dark5.resCount)) = some (2, 8, 8, 4) := by
  refine ⟨rfl, rfl, ?_, ?_⟩
  · rw [(Darknet.init_spec 21 in_channels so feats hf).2 1 2 2 1 rfl]
    simp [Except.toOption, Stage.resCount_append, Stage.resCount_group,
      Stage.resCount_spp]
  · rw [(Darknet.init_spec 53 in_channels so feats hf).2 2 8 8 4 rfl]
    simp [Except.toOption, Stage.resCount_append, Stage.resCount_group,
      Stage.resCount_spp]

/-- C3 witness. -/
theorem claim_C3_witness :
    (["dark3"] : List String) ≠ [] ∧
    (Darknet.init 53 3 32 ["dark3"]).toOption.map
      (fun n => (n.dark2.resCount, n.dark3.resCount,
                 n.dark4.resCount, n.dark5.resCount)) = some (2, 8, 8, 4) :=
  ⟨by decide, (claim_C3_depth2blocks_repeat_counts 3 32 ["dark3"]
      (by decide)).2.2.2⟩

/-- C6: for both constructors an empty requested output-feature set fails
construction immediately: the very first statement raises, and the returned
error (`emptyOutFeatures`, which carries no partial graph, in contrast to
`unsupportedDepth`) witnesses that no layer of the network graph was built,
whatever the remaining parameters are. -/
theorem claim_C6_empty_out_features_fails_before_building
    (depth in_channels so : ℤ) (d w : ℚ) (act : String) (depthwise : Bool) :
    Darknet.init depth in_channels so [] = .error .emptyOutFeatures ∧
    CSPDarknet.init d w [] act depthwise = .error .emptyOutFeatures :=
  ⟨rfl, rfl⟩

/-- C7: the fixed-depth `Darknet` constructor fails for every depth outside
{21, 53} (whatever the output request), and succeeds for depth 21 and for
depth 53 whenever the output request is non-empty. -/
theorem claim_C7_unsupported_depth_fails (depth in_channels so : ℤ)
    (feats : List String) :
    (depth ≠ 21 ∧ depth ≠ 53 →
      ∃ e, Darknet.init depth in_channels so feats = .error e) ∧
    (feats ≠ [] → (depth = 21 ∨ depth = 53) →
      ∃ net, Darknet.init depth in_channels so feats = .ok net) := by
  constructor
  · rintro ⟨h21, h53⟩
    by_cases hf : feats = []
    · exact ⟨.emptyOutFeatures, by rw [hf]; rfl⟩
    · exact ⟨_, (Darknet.init_spec depth in_channels so feats hf).1
        (Darknet.depth2blocks_eq_none h21 h53)⟩
  · rintro hf (rfl | rfl)
    · exact ⟨_, (Darknet.init_spec 21 in_channels so feats hf).2 1 2 2 1 rfl⟩
    · exact ⟨_, (Darknet.init_spec 53 in_channels so feats hf).2 2 8 8 4 rfl⟩

/-- C7 witness. -/
theorem claim_C7_witness :
    (∃ e, Darknet.init 40 3 32 ["dark3"] = .error e) ∧
    (∃ net, Darknet.init 21 3 32 ["dark3"] = .ok net) :=
  ⟨(claim_C7_unsupported_depth_fails 40 3 32 ["dark3"]).1 (by decide),
   (claim_C7_unsupported_depth_fails 21 3 32 ["dark3"]).2 (by decide)
     (Or.inl rfl)⟩

/-- C9: construction of the fixed-depth `Darknet` with an invalid depth is
not atomic: the unsupported-depth error is raised only after the stem (a
stride-1 `BaseConv` followed by the stride-2 group layer, i.e. a stride-2
`BaseConv` plus one `ResLayer`) has been built, and the error carries that
already-built stem; the empty-output-set check, by contrast, fires before
any graph building, whatever the depth. -/
theorem claim_C9_depth_check_after_stem (depth in_channels so : ℤ)
    (feats : List String) :
    (depth ≠ 21 → depth ≠ 53 → feats ≠ [] →
      Darknet.init depth in_channels so feats = .error (.unsupportedDepth
        [Block.baseConv in_channels so 3 1 "lrelu",
         Block.baseConv so (so * 2) 3 2 "lrelu",
         Block.resLayer (so * 2)])) ∧
    Darknet.init depth in_channels so [] = .error .emptyOutFeatures := by
  refine ⟨fun h21 h53 hf => ?_, rfl⟩
  exact (Darknet.init_spec depth in_channels so feats hf).1
    (Darknet.depth2blocks_eq_none h21 h53)

/-- C9 witness. -/
theorem claim_C9_witness :
    Darknet.init 40 3 32 ["dark3"] = .error (.unsupportedDepth
      [Block.baseConv 3 32 3 1 "lrelu",
       Block.baseConv 32 64 3 2 "lrelu",
       Block.resLayer 64]) ∧
    Darknet.init 40 3 32 [] = .error .emptyOutFeatures :=
  ⟨by
    have h := (claim_C9_depth_check_after_stem 40 3 32 ["dark3"]).1
      (by decide) (by decide) (by decide)
    simpa using h,
   (claim_C9_depth_check_after_stem 40 3 32 ["dark3"]).2⟩

/-- Full characterization of `CSPDarknet.init` on a non-empty output
request: the five stages in terms of `base_channels = int(w * 64)` and
`base_depth = max(round(d * 3), 1)`. -/
lemma CSPDarknet.init_ok (d w : ℚ) (feats : List String) (act : String)
    (depthwise : Bool) (hf : feats ≠ []) :
    CSPDarknet.init d w feats act depthwise = .ok
      ⟨[Block.focus 3 (pyInt (w * 64)) 3 act],
       [Block.baseConv (pyInt (w * 64)) (pyInt (w * 64) * 2) 3 2 act,
        Block.cspLayer (pyInt (w * 64) * 2) (pyInt (w * 64) * 2)
          (max (pyRound (d * 3)) 1).toNat true depthwise act],
       [Block.baseConv (pyInt (w * 64) * 2) (pyInt (w * 64) * 4) 3 2 act,
        Block.cspLayer (pyInt (w * 64) * 4) (pyInt (w * 64) * 4)
          ((max (pyRound (d * 3)) 1).toNat * 3) true depthwise act],
       [Block.baseConv (pyInt (w * 64) * 4) (pyInt (w * 64) * 8) 3 2 act,
        Block.cspLayer (pyInt (w * 64) * 8) (pyInt (w * 64) * 8)
          ((max (pyRound (d * 3)) 1).toNat * 3) true depthwise act],
       [Block.baseConv (pyInt (w * 64) * 8) (pyInt (w * 64) * 16) 3 2 act,
        Block.sppBottleneck (pyInt (w * 64) * 16) (pyInt (w * 64) * 16) act,
        Block.cspLayer (pyInt (w * 64) * 16) (pyInt (w * 64) * 16)
          (max (pyRound (d * 3)) 1).toNat false depthwise act],
       feats⟩ := by
  unfold CSPDarknet.init
  rw [if_neg hf]

/-- The base block-repeat count is positive, so its `ℕ` truncation is
faithful. -/
lemma baseDepth_toNat (d : ℚ) :
    ((max (pyRound (d * 3)) 1).toNat : ℤ) = max (pyRound (d * 3)) 1 :=
  Int.toNat_of_nonneg (le_trans zero_le_one (le_max_right _ 1))

/-! ### Claim theorems (construction, CSPDarknet variant) -/

/-- C1 (amended): for every width multiplier `w` and depth multiplier `d`
accepted by the `CSPDarknet` constructor, the derived base channel count
equals `int(w * 64)` — Python `int`, i.e. truncation toward zero, not
rounding — and the derived base block-repeat count equals
`max(round(d * 3), 1)` with `round` the source's Python `round`
(round half to even).  The base channel count is read back from the stem's
`Focus` block, the base repeat count from dark2's `CSPLayer`. -/
theorem claim_C1_base_channels_and_depth (d w : ℚ) (feats : List String)
    (act : String) (depthwise : Bool) (hf : feats ≠ []) :
    (CSPDarknet.init d w feats act depthwise).toOption.map
      (fun n => Stage.outCh 0 n.stem) = some (pyInt (w * 64)) ∧
    (CSPDarknet.init d w feats act depthwise).toOption.map
      (fun n => (n.dark2.cspN : ℤ)) = some (max (pyRound (d * 3)) 1) := by
  rw [CSPDarknet.init_ok d w feats act depthwise hf]
  refine ⟨rfl, ?_⟩
  simp [Except.toOption, Stage.cspN, baseDepth_toNat]

/-- C1 witness. -/
theorem claim_C1_witness :
    (["dark3"] : List String) ≠ [] ∧
    (CSPDarknet.init 1 1 ["dark3"] "silu" false).toOption.map
      (fun n => Stage.outCh 0 n.stem) = some (pyInt (1 * 64)) :=
  ⟨by decide,
   (claim_C1_base_channels_and_depth 1 1 ["dark3"] "silu" false (by decide)).1⟩

/-- C1 counterexample: at `width_multiplier = 9/10` the code derives
`int(0.9 * 64) = 57`, while `round(0.9 * 64) = 58` under Python's
round-half-to-even and under round-half-up alike, so the base channel count
is not `round(64 * w)`. -/
theorem claim_C1_counterexample :
    (CSPDarknet.init 1 (9 / 10) ["dark3"] "silu" false).toOption.map
      (fun n => Stage.outCh 0 n.stem) = some 57 ∧
    pyRound ((9 / 10 : ℚ) * 64) = 58 ∧
    round ((9 / 10 : ℚ) * 64) = 58 ∧
    (57 : ℤ) ≠ 58 := by
  refine ⟨?_, ?_, ?_, by decide⟩
  · rw [CSPDarknet.init_ok 1 (9 / 10) ["dark3"] "silu" false (by decide)]
    have : pyInt ((9 / 10 : ℚ) * 64) = 57 := by norm_num [pyInt]
    simp [Except.toOption, Stage.outCh, Block.outCh, this]
  · norm_num [pyRound]
  · rw [round_eq]; norm_num

/-- C2: for every depth multiplier `d` accepted by the `CSPDarknet`
constructor, the CSP block repeat counts of the four stages are
dark2 = base_depth, dark3 = 3 × base_depth, dark4 = 3 × base_depth,
dark5 = base_depth, where base_depth = max(round(3 × d), 1) (`round` being
the source's Python `round`, round half to even). -/
theorem claim_C2_csp_repeat_counts (d w : ℚ) (feats : List String)
    (act : String) (depthwise : Bool) (hf : feats ≠ []) :
    (CSPDarknet.init d w feats act depthwise).toOption.map
      (fun n => ((n.dark2.cspN : ℤ), (n.dark3.cspN : ℤ),
                 (n.dark4.cspN : ℤ), (n.dark5.cspN : ℤ))) =
      some (max (pyRound (3 * d)) 1, 3 * max (pyRound (3 * d)) 1,
            3 * max (pyRound (3 * d)) 1, max (pyRound (3 * d)) 1) := by
  rw [CSPDarknet.init_ok d w feats act depthwise hf]
  have hc : pyRound (3 * d) = pyRound (d * 3) := by rw [mul_comm]
  simp [Except.toOption, Stage.cspN, hc, baseDepth_toNat]
  ring

/-- C2 witness. -/
theorem claim_C2_witness :
    (["dark3"] : List String) ≠ [] ∧
    (CSPDarknet.init 1 1 ["dark3"] "silu" false).toOption.map
      (fun n => ((n.dark2.cspN : ℤ), (n.dark3.cspN : ℤ),
                 (n.dark4.cspN : ℤ), (n.dark5.cspN : ℤ))) =
      some (max (pyRound (3 * 1)) 1, 3 * max (pyRound (3 * 1)) 1,
            3 * max (pyRound (3 * 1)) 1, max (pyRound (3 * 1)) 1) :=
  ⟨by decide,
   claim_C2_csp_repeat_counts 1 1 ["dark3"] "silu" false (by decide)⟩

/-! ### Claim theorem C5: channel progression and wiring -/

/-- C5 (amended): in every constructed network the static wiring invariant
holds (each block's declared input channels equal the previous block's
declared output channels, across all five stages).  The declared stage
output channels double at the transitions stem→dark2→dark3→dark4 in the
fixed-depth `Darknet` (2·so, 4·so, 8·so, 16·so for stem output channels
`so`), but dark5's declared output stays at 16·so — equal to dark4's, not
doubled — because the SPP block ends in a 1×1 convolution back down to
16·so; the 32·so width appears only inside dark5.  In `CSPDarknet` the
doubling holds at all four transitions: base_channels, 2×, 4×, 8×, 16×. -/
theorem claim_C5_channel_progression (in_channels so : ℤ)
    (feats : List String) (d w : ℚ) (act : String) (depthwise : Bool)
    (hf : feats ≠ []) :
    ((Darknet.init 21 in_channels so feats).toOption.map
      (fun n =>
        (Stage.wiredFrom in_channels
          (n.stem ++ n.dark2 ++ n.dark3 ++ n.dark4 ++ n.dark5),
         Stage.outCh 0 n.stem, Stage.outCh 0 n.dark2, Stage.outCh 0 n.dark3,
         Stage.outCh 0 n.dark4, Stage.outCh 0 n.dark5)) =
      some (true, so * 2, so * 4, so * 8, so * 16, so * 16)) ∧
    ((Darknet.init 53 in_channels so feats).toOption.map
      (fun n =>
        (Stage.wiredFrom in_channels
          (n.stem ++ n.dark2 ++ n.dark3 ++ n.dark4 ++ n.dark5),
         Stage.outCh 0 n.stem, Stage.outCh 0 n.dark2, Stage.outCh 0 n.dark3,
         Stage.outCh 0 n.dark4, Stage.outCh 0 n.dark5)) =
      some (true, so * 2, so * 4, so * 8, so * 16, so * 16)) ∧
    ((CSPDarknet.init d w feats act depthwise).toOption.map
      (fun n =>
        (Stage.wiredFrom 3
          (n.stem ++ n.dark2 ++ n.dark3 ++ n.dark4 ++ n.dark5),
         Stage.outCh 0 n.stem, Stage.outCh 0 n.dark2, Stage.outCh 0 n.dark3,
         Stage.outCh 0 n.dark4, Stage.outCh 0 n.dark5)) =
      some (true, pyInt (w * 64), pyInt (w * 64) * 2, pyInt (w * 64) * 4,
            pyInt (w * 64) * 8, pyInt (w * 64) * 16)) := by
  refine ⟨?_, ?_, ?_⟩
  · rw [(Darknet.init_spec 21 in_channels so feats hf).2 1 2 2 1 rfl]
    simp [Except.toOption, Darknet.make_group_layer, Darknet.make_spp_block,
      Stage.wiredFrom, Stage.outCh, Block.inCh, Block.outCh,
      List.replicate_succ, List.foldl_cons, List.foldl_nil,
      List.cons_append, List.nil_append]
    omega
  · rw [(Darknet.init_spec 53 in_channels so feats hf).2 2 8 8 4 rfl]
    simp [Except.toOption, Darknet.make_group_layer, Darknet.make_spp_block,
      Stage.wiredFrom, Stage.outCh, Block.inCh, Block.outCh,
      List.replicate_succ, List.foldl_cons, List.foldl_nil,
      List.cons_append, List.nil_append]
    omega
  · rw [CSPDarknet.init_ok d w feats act depthwise hf]
    simp [Except.toOption, Stage.wiredFrom, Stage.outCh, Block.inCh,
      Block.outCh, List.foldl_cons, List.foldl_nil, List.cons_append,
      List.nil_append]

/-- C5 witness. -/
theorem claim_C5_witness :
    (["dark3"] : List String) ≠ [] ∧
    (Darknet.init 21 3 32 ["dark3"]).toOption.map
      (fun n =>
        (Stage.wiredFrom 3
          (n.stem ++ n.dark2 ++ n.dark3 ++ n.dark4 ++ n.dark5),
         Stage.outCh 0 n.stem, Stage.outCh 0 n.dark2, Stage.outCh 0 n.dark3,
         Stage.outCh 0 n.dark4, Stage.outCh 0 n.dark5)) =
      some (true, 32 * 2, 32 * 4, 32 * 8, 32 * 16, 32 * 16) ∧
    (CSPDarknet.init 1 1 ["dark3"] "silu" false).toOption.map
      (fun n =>
        (Stage.wiredFrom 3
          (n.stem ++ n.dark2 ++ n.dark3 ++ n.dark4 ++ n.dark5),
         Stage.outCh 0 n.stem, Stage.outCh 0 n.dark2, Stage.outCh 0 n.dark3,
         Stage.outCh 0 n.dark4, Stage.outCh 0 n.dark5)) =
      some (true, pyInt (1 * 64), pyInt (1 * 64) * 2, pyInt (1 * 64) * 4,
            pyInt (1 * 64) * 8, pyInt (1 * 64) * 16) :=
  ⟨by decide,
   (claim_C5_channel_progression 3 32 ["dark3"] 1 1 "silu" false
     (by decide)).1,
   (claim_C5_channel_progression 3 32 ["dark3"] 1 1 "silu" false
     (by decide)).2.2⟩

/-- C5 counterexample: with the default `stem_out_channels = 32` the
fixed-depth `Darknet` declares dark4 and dark5 outputs of 512 channels
each: dark5's output is not double dark4's, and it is 512, not
32 × 32 = 1024 as the claim's "up to 32×stem_out_channels after dark5's
SPP block" asserts. -/
theorem claim_C5_counterexample :
    (Darknet.init 21 3 32 ["dark5"]).toOption.map
      (fun n => (Stage.outCh 0 n.dark4, Stage.outCh 0 n.dark5)) =
      some (512, 512) ∧
    ¬((512 : ℤ) = 2 * 512) ∧ ¬((512 : ℤ) = 32 * 32) := by
  refine ⟨?_, by decide, by decide⟩
  rw [(Darknet.init_spec 21 3 32 ["dark5"] (by decide)).2 1 2 2 1 rfl]
  simp [Except.toOption, Darknet.make_group_layer, Darknet.make_spp_block,
    Stage.outCh, Block.outCh, List.replicate_succ, List.foldl_cons,
    List.foldl_nil, List.cons_append, List.nil_append]

/-! ### Forward-pass helper lemmas -/

/-- The key sequence of `Darknet.forward`'s returned mapping is the fixed
stage-name order filtered by membership in the requested output set. -/
lemma darknet_forward_keys {T : Type} (net : Darknet.Net)
    (interp : Block → T → T) (x : T) :
    (net.forward interp x).map Prod.fst =
      stageNames.filter (fun s => decide (s ∈ net.out_features)) := by
  by_cases h1 : "stem" ∈ net.out_features <;>
  by_cases h2 : "dark2" ∈ net.out_features <;>
  by_cases h3 : "dark3" ∈ net.out_features <;>
  by_cases h4 : "dark4" ∈ net.out_features <;>
  by_cases h5 : "dark5" ∈ net.out_features <;>
  simp [Darknet.Net.forward, stageNames, h1, h2, h3, h4, h5]

/-- The key sequence of `CSPDarknet.forward`'s returned mapping is the fixed
stage-name order filtered by membership in the requested output set. -/
lemma cspdarknet_forward_keys {T : Type} (net : CSPDarknet.Net)
    (interp : Block → T → T) (x : T) :
    (net.forward interp x).map Prod.fst =
      stageNames.filter (fun s => decide (s ∈ net.out_features)) := by
  by_cases h1 : "stem" ∈ net.out_features <;>
  by_cases h2 : "dark2" ∈ net.out_features <;>
  by_cases h3 : "dark3" ∈ net.out_features <;>
  by_cases h4 : "dark4" ∈ net.out_features <;>
  by_cases h5 : "dark5" ∈ net.out_features <;>
  simp [CSPDarknet.Net.forward, stageNames, h1, h2, h3, h4, h5]

/-! ### Claim theorems (forward pass) -/

/-- C4: for either variant the key set of the mapping returned by `forward`
is exactly the intersection of the five stage names with the requested
output-feature set — so requested names outside the five stage names
contribute no key (and `forward` is total: no error is possible) — and it
depends only on the membership of the requested set, not on the order in
which the names were listed (nor on the input or on the blocks'
semantics). -/
theorem claim_C4_key_set_is_intersection {T T' : Type}
    (netD netD' : Darknet.Net) (netC netC' : CSPDarknet.Net)
    (interpD : Block → T → T) (x : T) (interpD' : Block → T' → T') (x' : T')
    (interpC : Block → T → T) (y : T) (interpC' : Block → T' → T') (y' : T') :
    ((∀ k, k ∈ (netD.forward interpD x).map Prod.fst ↔
        (k ∈ stageNames ∧ k ∈ netD.out_features)) ∧
     ((∀ s, s ∈ netD'.out_features ↔ s ∈ netD.out_features) →
        (netD'.forward interpD' x').map Prod.fst =
          (netD.forward interpD x).map Prod.fst)) ∧
    ((∀ k, k ∈ (netC.forward interpC y).map Prod.fst ↔
        (k ∈ stageNames ∧ k ∈ netC.out_features)) ∧
     ((∀ s, s ∈ netC'.out_features ↔ s ∈ netC.out_features) →
        (netC'.forward interpC' y').map Prod.fst =
          (netC.forward interpC y).map Prod.fst)) := by
  refine ⟨⟨?_, ?_⟩, ⟨?_, ?_⟩⟩
  · intro k
    rw [darknet_forward_keys]
    simp [List.mem_filter]
  · intro hs
    rw [darknet_forward_keys, darknet_forward_keys]
    exact List.filter_congr fun a _ => decide_eq_decide.mpr (hs a)
  · intro k
    rw [cspdarknet_forward_keys]
    simp [List.mem_filter]
  · intro hs
    rw [cspdarknet_forward_keys, cspdarknet_forward_keys]
    exact List.filter_congr fun a _ => decide_eq_decide.mpr (hs a)

/-- C4 witness. -/
theorem claim_C4_witness :
    ("other" ∈ ((⟨[], [], [], [], [], ["dark5", "other", "stem"]⟩ :
        Darknet.Net).forward (fun _ t => t) (0 : ℕ)).map Prod.fst ↔
      ("other" ∈ stageNames ∧
        "other" ∈ (["dark5", "other", "stem"] : List String))) ∧
    ((⟨[], [], [], [], [], ["stem", "dark5"]⟩ : CSPDarknet.Net).forward
        (fun _ t => t) (0 : ℕ)).map Prod.fst =
      ((⟨[], [], [], [], [], ["dark5", "stem"]⟩ : CSPDarknet.Net).forward
        (fun _ t => t) (0 : ℕ)).map Prod.fst :=
  ⟨(claim_C4_key_set_is_intersection
      ⟨[], [], [], [], [], ["dark5", "other", "stem"]⟩
      ⟨[], [], [], [], [], ["dark5", "other", "stem"]⟩
      ⟨[], [], [], [], [], ["dark5", "stem"]⟩
      ⟨[], [], [], [], [], ["stem", "dark5"]⟩
      (fun _ t => t) (0 : ℕ) (fun _ t => t) (0 : ℕ)
      (fun _ t => t) (0 : ℕ) (fun _ t => t) (0 : ℕ)).1.1 "other",
   (claim_C4_key_set_is_intersection
      ⟨[], [], [], [], [], ["dark5", "other", "stem"]⟩
      ⟨[], [], [], [], [], ["dark5", "other", "stem"]⟩
      ⟨[], [], [], [], [], ["dark5", "stem"]⟩
      ⟨[], [], [], [], [], ["stem", "dark5"]⟩
      (fun _ t => t) (0 : ℕ) (fun _ t => t) (0 : ℕ)
      (fun _ t => t) (0 : ℕ) (fun _ t => t) (0 : ℕ)).2.2
      (by intro s; simp [or_comm])⟩

/-- C8: both forward passes compute all five stage outputs sequentially and
unconditionally — the full `outputs` mapping lists all five stage names, in
which each stage's value is the stage's evaluation of the previous stage's
value, regardless of the requested set — and the returned mapping is
exactly the restriction (filter) of that full mapping to the requested
names. -/
theorem claim_C8_compute_all_then_filter {T : Type} (netD : Darknet.Net)
    (netC : CSPDarknet.Net) (interp : Block → T → T) (x : T) :
    ((fullOutputs interp netD.stem netD.dark2 netD.dark3 netD.dark4
        netD.dark5 x).map Prod.fst = stageNames ∧
     fullOutputs interp netD.stem netD.dark2 netD.dark3 netD.dark4
        netD.dark5 x =
       [("stem", netD.stem.eval interp x),
        ("dark2", netD.dark2.eval interp (netD.stem.eval interp x)),
        ("dark3", netD.dark3.eval interp (netD.dark2.eval interp
          (netD.stem.eval interp x))),
        ("dark4", netD.dark4.eval interp (netD.dark3.eval interp
          (netD.dark2.eval interp (netD.stem.eval interp x)))),
        ("dark5", netD.dark5.eval interp (netD.dark4.eval interp
          (netD.dark3.eval interp (netD.dark2.eval interp
            (netD.stem.eval interp x)))))] ∧
     netD.forward interp x =
       (fullOutputs interp netD.stem netD.dark2 netD.dark3 netD.dark4
         netD.dark5 x).filter
           (fun kv => decide (kv.1 ∈ netD.out_features))) ∧
    ((fullOutputs interp netC.stem netC.dark2 netC.dark3 netC.dark4
        netC.dark5 x).map Prod.fst = stageNames ∧
     fullOutputs interp netC.stem netC.dark2 netC.dark3 netC.dark4
        netC.dark5 x =
       [("stem", netC.stem.eval interp x),
        ("dark2", netC.dark2.eval interp (netC.stem.eval interp x)),
        ("dark3", netC.dark3.eval interp (netC.dark2.eval interp
          (netC.stem.eval interp x))),
        ("dark4", netC.dark4.eval interp (netC.dark3.eval interp
          (netC.dark2.eval interp (netC.stem.eval interp x)))),
        ("dark5", netC.dark5.eval interp (netC.dark4.eval interp
          (netC.dark3.eval interp (netC.dark2.eval interp
            (netC.stem.eval interp x)))))] ∧
     netC.forward interp x =
       (fullOutputs interp netC.stem netC.dark2 netC.dark3 netC.dark4
         netC.dark5 x).filter
           (fun kv => decide (kv.1 ∈ netC.out_features))) :=
  ⟨⟨rfl, rfl, rfl⟩, ⟨rfl, rfl, rfl⟩⟩

/-- C10: for either variant the returned mapping enumerates its entries in
the fixed stage order stem, dark2, dark3, dark4, dark5 restricted to the
requested names (whatever order those were given in), and any two forward
calls on the same constructed network — even with different inputs or block
semantics — produce identical key sequences. -/
theorem claim_C10_key_enumeration_order {T T' : Type} (netD : Darknet.Net)
    (netC : CSPDarknet.Net) (interpD : Block → T → T) (x : T)
    (interpD' : Block → T' → T') (x' : T') (interpC : Block → T → T) (y : T)
    (interpC' : Block → T' → T') (y' : T') :
    ((netD.forward interpD x).map Prod.fst =
       stageNames.filter (fun s => decide (s ∈ netD.out_features)) ∧
     (netD.forward interpD x).map Prod.fst =
       (netD.forward interpD' x').map Prod.fst) ∧
    ((netC.forward interpC y).map Prod.fst =
       stageNames.filter (fun s => decide (s ∈ netC.out_features)) ∧
     (netC.forward interpC y).map Prod.fst =
       (netC.forward interpC' y').map Prod.fst) := by
  refine ⟨⟨darknet_forward_keys netD interpD x, ?_⟩,
          ⟨cspdarknet_forward_keys netC interpC y, ?_⟩⟩
  · rw [darknet_forward_keys, darknet_forward_keys]
  · rw [cspdarknet_forward_keys, cspdarknet_forward_keys]
